import Mathlib

/-!
Verification of the thread-lifecycle shim in `src/embed/stub/thread.c`
(`_lfi_thread_create` / `_lfi_thread_destroy`).

The C code is embedded shallowly.  Pointers are modelled as `Nat`, with `0`
playing the role of `NULL`.  The nondeterministic behaviour of the platform
(whether `malloc`, `pthread_attr_init`, `pthread_attr_setstacksize` and
`pthread_create` succeed, and the default stack size an attribute object is
given on `pthread_attr_init`) is captured by an explicit environment `Env`.
Observable state is captured by `St`: the list of live heap blocks, the trace
of `pthread_create` spawn events, and a counter of `pthread_attr_destroy`
calls.  Each libc/pthread call is a Lean function over these, and the two
source functions are translated line by line on top of them.
-/

namespace LfiBind

/-- A `pthread_attr_t` object: the only field the program touches is the
stack size. -/
structure Attr where
  stacksize : Nat
deriving Repr, DecidableEq

/-- One invocation of `pthread_create`: the identifier pointer passed as its
first argument (`0` = `NULL`), the stack size held by the attribute object at
spawn time, the entry function pointer, and the context argument. -/
structure SpawnEvent where
  tid : Nat
  stacksize : Nat
  fn : Nat
  arg : Nat
deriving Repr, DecidableEq

/-- Platform environment: whether `malloc` fails, the default stack size an
attribute object receives from `pthread_attr_init`, and the return codes the
three pthread calls produce (`0` = success, nonzero = failure). -/
structure Env where
  mallocFails : Bool
  defaultStackSize : Nat
  attrInitRet : Nat
  setStackRet : Nat
  createRet : Nat
deriving Repr, DecidableEq

/-- Observable program state: addresses of live heap blocks, the next fresh
address `malloc` hands out, the trace of `pthread_create` invocations that
actually started a thread, and how many times `pthread_attr_destroy` has been
called. -/
structure St where
  heap : List Nat
  nextAddr : Nat
  spawns : List SpawnEvent
  attrDestroyCalls : Nat
deriving Repr, DecidableEq

/-- `malloc`: on failure returns the null pointer and leaves the heap
untouched; on success returns a fresh address and records it as live. -/
def malloc (env : Env) (st : St) : Nat × St :=
  if env.mallocFails then (0, st)
  else (st.nextAddr,
    { st with heap := st.nextAddr :: st.heap, nextAddr := st.nextAddr + 1 })

/-- `free`: freeing the null pointer is a no-op (C11 7.22.3.3); otherwise the
block is removed from the live set. -/
def free (p : Nat) (h : List Nat) : List Nat :=
  if p = 0 then h else h.erase p

/-- `pthread_attr_init`: yields the environment's return code together with an
attribute object holding the platform default stack size. -/
def pthread_attr_init (env : Env) : Nat × Attr :=
  (env.attrInitRet, ⟨env.defaultStackSize⟩)

/-- `pthread_attr_setstacksize`: on success the attribute object's stack size
becomes `sz`; on failure the object is unchanged. -/
def pthread_attr_setstacksize (env : Env) (a : Attr) (sz : Nat) : Nat × Attr :=
  (env.setStackRet, if env.setStackRet = 0 then { a with stacksize := sz } else a)

/-- `pthread_attr_destroy`: releases an attribute object.  The program under
verification never calls it; it is modelled so that the trace can witness
that fact via the `attrDestroyCalls` counter. -/
def pthread_attr_destroy (st : St) : Nat × St :=
  (0, { st with attrDestroyCalls := st.attrDestroyCalls + 1 })

/-- `pthread_create`: on failure returns the nonzero code and starts no
thread; on success returns `0` and appends the spawn event to the trace. -/
def pthread_create (env : Env) (t : Nat) (attrs : Attr) (fn : Nat) (arg : Nat)
    (st : St) : Nat × St :=
  if env.createRet ≠ 0 then (env.createRet, st)
  else (0, { st with spawns := st.spawns ++ [⟨t, attrs.stacksize, fn, arg⟩] })

/-- `_lfi_thread_create` from `src/embed/stub/thread.c`, line by line:
`pthread_t* t = malloc(sizeof(pthread_t));` then `pthread_attr_init`, with an
early `NULL` return on nonzero; then `pthread_attr_setstacksize(&attrs,
2*1024*1024)`, with an early `NULL` return on nonzero; then
`pthread_create(t, &attrs, fn, NULL)` whose return value is discarded; and
finally `return t;`. -/
def _lfi_thread_create (env : Env) (fn : Nat) (st : St) : Nat × St :=
  let m := malloc env st
  let t := m.1
  let st1 := m.2
  let ai := pthread_attr_init env
  if ai.1 ≠ 0 then (0, st1)
  else
    let ss := pthread_attr_setstacksize env ai.2 (2 * 1024 * 1024)
    if ss.1 ≠ 0 then (0, st1)
    else
      let pc := pthread_create env t ss.2 fn 0 st1
      (t, pc.2)

/-- `_lfi_thread_destroy` from `src/embed/stub/thread.c`:
`free((pthread_t*) arg);`. -/
def _lfi_thread_destroy (arg : Nat) (st : St) : St :=
  { st with heap := free arg st.heap }

end LfiBind

namespace LfiBind

/-- A platform environment on which every call succeeds. -/
def envOk : Env := ⟨false, 8 * 1024 * 1024, 0, 0, 0⟩

/-- A platform environment on which `pthread_attr_init` fails. -/
def envInitFail : Env := ⟨false, 8 * 1024 * 1024, 1, 0, 0⟩

/-- A platform environment on which `pthread_attr_setstacksize` fails. -/
def envStackFail : Env := ⟨false, 8 * 1024 * 1024, 0, 22, 0⟩

/-- A platform environment on which `pthread_create` fails. -/
def envSpawnFail : Env := ⟨false, 8 * 1024 * 1024, 0, 0, 11⟩

/-- A platform environment on which `malloc` fails. -/
def envNoMem : Env := ⟨true, 8 * 1024 * 1024, 0, 0, 0⟩

/-- An initial state: empty heap, next fresh address `1`, no spawns. -/
def st0 : St := ⟨[], 1, [], 0⟩

theorem malloc_spawns (env : Env) (st : St) :
    (malloc env st).2.spawns = st.spawns := by
  unfold malloc; split <;> rfl

/-- Claim C1: if `pthread_attr_init` or `pthread_attr_setstacksize` returns
nonzero, `_lfi_thread_create` returns `NULL` and `pthread_create` is never
invoked on that path (the spawn trace is unchanged), for every entry
function. -/
theorem create_attr_fail_no_spawn (env : Env) (fn : Nat) (st : St)
    (h : env.attrInitRet ≠ 0 ∨ env.setStackRet ≠ 0) :
    (_lfi_thread_create env fn st).1 = 0 ∧
    (_lfi_thread_create env fn st).2.spawns = st.spawns := by
  have hm := malloc_spawns env st
  rcases h with h | h
  · simp [_lfi_thread_create, pthread_attr_init, h, hm]
  · by_cases hi : env.attrInitRet = 0
    · simp [_lfi_thread_create, pthread_attr_init, pthread_attr_setstacksize,
        hi, h, hm]
    · simp [_lfi_thread_create, pthread_attr_init, hi, hm]

/-- Witness for C1 at a concrete failing environment. -/
theorem create_attr_fail_no_spawn_witness :
    (envInitFail.attrInitRet ≠ 0 ∨ envInitFail.setStackRet ≠ 0) ∧
    ((_lfi_thread_create envInitFail 7 st0).1 = 0 ∧
     (_lfi_thread_create envInitFail 7 st0).2.spawns = st0.spawns) :=
  ⟨Or.inl (by decide),
   create_attr_fail_no_spawn envInitFail 7 st0 (Or.inl (by decide))⟩

end LfiBind

namespace LfiBind

/-- Claim C2: on the successful path, the single thread spawned by
`_lfi_thread_create` is created with a stack size of exactly
`2 * 1024 * 1024` bytes, whatever the platform default stack size was; the
size is fixed in the spawn event at creation time, and no later operation
(`_lfi_thread_destroy` included) ever alters the spawn trace. -/
theorem create_spawn_stacksize (env : Env) (fn : Nat) (st : St)
    (h1 : env.attrInitRet = 0) (h2 : env.setStackRet = 0)
    (h3 : env.createRet = 0) :
    ((_lfi_thread_create env fn st).2.spawns =
      st.spawns ++ [⟨(malloc env st).1, 2 * 1024 * 1024, fn, 0⟩]) ∧
    (∀ p st', (_lfi_thread_destroy p st').spawns = st'.spawns) := by
  have hm := malloc_spawns env st
  refine ⟨?_, fun p st' => rfl⟩
  simp [_lfi_thread_create, pthread_attr_init, pthread_attr_setstacksize,
    pthread_create, h1, h2, h3, hm]

/-- Witness for C2 at a concrete all-success environment. -/
theorem create_spawn_stacksize_witness :
    (envOk.attrInitRet = 0 ∧ envOk.setStackRet = 0 ∧ envOk.createRet = 0) ∧
    (((_lfi_thread_create envOk 7 st0).2.spawns =
        st0.spawns ++ [⟨(malloc envOk st0).1, 2 * 1024 * 1024, 7, 0⟩]) ∧
     (∀ p st', (_lfi_thread_destroy p st').spawns = st'.spawns)) :=
  ⟨⟨rfl, rfl, rfl⟩, create_spawn_stacksize envOk 7 st0 rfl rfl rfl⟩

/-- Claim C3: `_lfi_thread_create` discards the return value of
`pthread_create`: when attribute setup succeeds but `pthread_create` fails
(nonzero return, no thread started), `create` still returns the non-null
malloc'd handle and the spawn trace records no started thread. -/
theorem create_ignores_spawn_failure (env : Env) (fn : Nat) (st : St)
    (h1 : env.attrInitRet = 0) (h2 : env.setStackRet = 0)
    (h3 : env.createRet ≠ 0) (h4 : env.mallocFails = false)
    (h5 : st.nextAddr ≠ 0) :
    (_lfi_thread_create env fn st).1 ≠ 0 ∧
    (_lfi_thread_create env fn st).2.spawns = st.spawns := by
  simp [_lfi_thread_create, malloc, pthread_attr_init,
    pthread_attr_setstacksize, pthread_create, h1, h2, h3, h4, h5]

/-- Witness for C3 at a concrete environment where only `pthread_create`
fails. -/
theorem create_ignores_spawn_failure_witness :
    (envSpawnFail.attrInitRet = 0 ∧ envSpawnFail.setStackRet = 0 ∧
     envSpawnFail.createRet ≠ 0 ∧ envSpawnFail.mallocFails = false ∧
     st0.nextAddr ≠ 0) ∧
    ((_lfi_thread_create envSpawnFail 7 st0).1 ≠ 0 ∧
     (_lfi_thread_create envSpawnFail 7 st0).2.spawns = st0.spawns) :=
  ⟨⟨rfl, rfl, by decide, rfl, by decide⟩,
   create_ignores_spawn_failure envSpawnFail 7 st0 rfl rfl (by decide) rfl
     (by decide)⟩

/-- Claim C4: on the attribute-failure path the identifier block malloc'd at
entry is never freed: `create` returns `NULL` while the freshly allocated
address is still live in the final heap, so the heap is not restored to its
pre-call state. -/
theorem create_attr_fail_leaks (env : Env) (fn : Nat) (st : St)
    (h : env.attrInitRet ≠ 0 ∨ env.setStackRet ≠ 0)
    (hm : env.mallocFails = false) (hf : st.nextAddr ∉ st.heap) :
    (_lfi_thread_create env fn st).1 = 0 ∧
    st.nextAddr ∈ (_lfi_thread_create env fn st).2.heap ∧
    (_lfi_thread_create env fn st).2.heap ≠ st.heap := by
  have hne : st.nextAddr :: st.heap ≠ st.heap := by
    intro he
    exact hf (he ▸ List.mem_cons_self st.nextAddr st.heap)
  rcases h with h | h
  · simp [_lfi_thread_create, malloc, pthread_attr_init, h, hm, hne]
  · by_cases hi : env.attrInitRet = 0
    · simp [_lfi_thread_create, malloc, pthread_attr_init,
        pthread_attr_setstacksize, hi, h, hm, hne]
    · simp [_lfi_thread_create, malloc, pthread_attr_init, hi, hm, hne]

/-- Witness for C4 at a concrete environment where the stack-size setter
fails. -/
theorem create_attr_fail_leaks_witness :
    ((envStackFail.attrInitRet ≠ 0 ∨ envStackFail.setStackRet ≠ 0) ∧
     envStackFail.mallocFails = false ∧ st0.nextAddr ∉ st0.heap) ∧
    ((_lfi_thread_create envStackFail 7 st0).1 = 0 ∧
     st0.nextAddr ∈ (_lfi_thread_create envStackFail 7 st0).2.heap ∧
     (_lfi_thread_create envStackFail 7 st0).2.heap ≠ st0.heap) :=
  ⟨⟨Or.inr (by decide), rfl, by decide⟩,
   create_attr_fail_leaks envStackFail 7 st0 (Or.inr (by decide)) rfl
     (by decide)⟩

/-- Claim C5: on the all-success path the handle returned is exactly the
address malloc'd for the native identifier (and that block is live in the
final heap), and the one spawn event is bound to exactly the given entry
function, carries that same identifier pointer, and passes a null (`0`)
context argument. -/
theorem create_success_binding (env : Env) (fn : Nat) (st : St)
    (h1 : env.attrInitRet = 0) (h2 : env.setStackRet = 0)
    (h3 : env.createRet = 0) (h4 : env.mallocFails = false) :
    (_lfi_thread_create env fn st).1 = st.nextAddr ∧
    st.nextAddr ∈ (_lfi_thread_create env fn st).2.heap ∧
    (_lfi_thread_create env fn st).2.spawns =
      st.spawns ++ [⟨st.nextAddr, 2 * 1024 * 1024, fn, 0⟩] := by
  simp [_lfi_thread_create, malloc, pthread_attr_init,
    pthread_attr_setstacksize, pthread_create, h1, h2, h3, h4]

/-- Witness for C5 at a concrete all-success environment. -/
theorem create_success_binding_witness :
    (envOk.attrInitRet = 0 ∧ envOk.setStackRet = 0 ∧ envOk.createRet = 0 ∧
     envOk.mallocFails = false) ∧
    ((_lfi_thread_create envOk 7 st0).1 = st0.nextAddr ∧
     st0.nextAddr ∈ (_lfi_thread_create envOk 7 st0).2.heap ∧
     (_lfi_thread_create envOk 7 st0).2.spawns =
       st0.spawns ++ [⟨st0.nextAddr, 2 * 1024 * 1024, 7, 0⟩]) :=
  ⟨⟨rfl, rfl, rfl, rfl⟩, create_success_binding envOk 7 st0 rfl rfl rfl rfl⟩

end LfiBind

namespace LfiBind

/-- Claim C6: for a handle returned by a successful `create`,
`_lfi_thread_destroy` removes exactly that one heap block and has no other
effect: the resulting state is the post-create state with only the handle's
address erased from the heap, so the spawn trace (no join, wait, signal or
cancel event), the allocator cursor and the attribute-destroy counter are
all untouched. -/
theorem destroy_frees_only_handle (env : Env) (fn : Nat) (st : St)
    (h1 : env.attrInitRet = 0) (h2 : env.setStackRet = 0)
    (h3 : env.createRet = 0) (h4 : env.mallocFails = false)
    (h5 : st.nextAddr ≠ 0) :
    _lfi_thread_destroy (_lfi_thread_create env fn st).1
        (_lfi_thread_create env fn st).2 =
      { (_lfi_thread_create env fn st).2 with
        heap := ((_lfi_thread_create env fn st).2.heap).erase
          ((_lfi_thread_create env fn st).1) } ∧
    (_lfi_thread_destroy (_lfi_thread_create env fn st).1
        (_lfi_thread_create env fn st).2).spawns =
      (_lfi_thread_create env fn st).2.spawns ∧
    (_lfi_thread_destroy (_lfi_thread_create env fn st).1
        (_lfi_thread_create env fn st).2).attrDestroyCalls =
      (_lfi_thread_create env fn st).2.attrDestroyCalls := by
  have ht : (_lfi_thread_create env fn st).1 = st.nextAddr := by
    simp [_lfi_thread_create, malloc, pthread_attr_init,
      pthread_attr_setstacksize, pthread_create, h1, h2, h3, h4]
  refine ⟨?_, rfl, rfl⟩
  rw [ht]
  simp [_lfi_thread_destroy, free, h5]

/-- Witness for C6 at a concrete all-success environment. -/
theorem destroy_frees_only_handle_witness :
    (envOk.attrInitRet = 0 ∧ envOk.setStackRet = 0 ∧ envOk.createRet = 0 ∧
     envOk.mallocFails = false ∧ st0.nextAddr ≠ 0) ∧
    (_lfi_thread_destroy (_lfi_thread_create envOk 7 st0).1
        (_lfi_thread_create envOk 7 st0).2 =
      { (_lfi_thread_create envOk 7 st0).2 with
        heap := ((_lfi_thread_create envOk 7 st0).2.heap).erase
          ((_lfi_thread_create envOk 7 st0).1) } ∧
     (_lfi_thread_destroy (_lfi_thread_create envOk 7 st0).1
        (_lfi_thread_create envOk 7 st0).2).spawns =
      (_lfi_thread_create envOk 7 st0).2.spawns ∧
     (_lfi_thread_destroy (_lfi_thread_create envOk 7 st0).1
        (_lfi_thread_create envOk 7 st0).2).attrDestroyCalls =
      (_lfi_thread_create envOk 7 st0).2.attrDestroyCalls) :=
  ⟨⟨rfl, rfl, rfl, rfl, by decide⟩,
   destroy_frees_only_handle envOk 7 st0 rfl rfl rfl rfl (by decide)⟩

/-- Claim C7: a successful `create` followed immediately by `destroy` of the
returned handle restores the heap to its exact pre-create state: the block
`create` allocated is freed and nothing else is left behind. -/
theorem create_destroy_roundtrip (env : Env) (fn : Nat) (st : St)
    (h1 : env.attrInitRet = 0) (h2 : env.setStackRet = 0)
    (h3 : env.createRet = 0) (h4 : env.mallocFails = false)
    (h5 : st.nextAddr ≠ 0) :
    (_lfi_thread_destroy (_lfi_thread_create env fn st).1
        (_lfi_thread_create env fn st).2).heap = st.heap := by
  simp [_lfi_thread_destroy, _lfi_thread_create, malloc, pthread_attr_init,
    pthread_attr_setstacksize, pthread_create, free, h1, h2, h3, h4, h5]

/-- Witness for C7 at a concrete all-success environment. -/
theorem create_destroy_roundtrip_witness :
    (envOk.attrInitRet = 0 ∧ envOk.setStackRet = 0 ∧ envOk.createRet = 0 ∧
     envOk.mallocFails = false ∧ st0.nextAddr ≠ 0) ∧
    (_lfi_thread_destroy (_lfi_thread_create envOk 7 st0).1
        (_lfi_thread_create envOk 7 st0).2).heap = st0.heap :=
  ⟨⟨rfl, rfl, rfl, rfl, by decide⟩,
   create_destroy_roundtrip envOk 7 st0 rfl rfl rfl rfl (by decide)⟩

/-- Claim C8: `_lfi_thread_destroy` on the null handle is a complete no-op:
`free(NULL)` deallocates nothing and does not fail, so the state is returned
unchanged. -/
theorem destroy_null_noop : ∀ st : St, _lfi_thread_destroy 0 st = st := by
  intro st
  simp [_lfi_thread_destroy, free]

/-- Claim C9: `create` never checks the `malloc` result: when `malloc`
returns `NULL` and attribute setup succeeds, `create` still proceeds and
invokes `pthread_create` with a null identifier pointer (the spawn event
records `tid = 0`), and hands the null pointer back as the "handle". -/
theorem create_null_malloc_unguarded (env : Env) (fn : Nat) (st : St)
    (hm : env.mallocFails = true) (h1 : env.attrInitRet = 0)
    (h2 : env.setStackRet = 0) (h3 : env.createRet = 0) :
    (_lfi_thread_create env fn st).2.spawns =
      st.spawns ++ [⟨0, 2 * 1024 * 1024, fn, 0⟩] ∧
    (_lfi_thread_create env fn st).1 = 0 := by
  simp [_lfi_thread_create, malloc, pthread_attr_init,
    pthread_attr_setstacksize, pthread_create, hm, h1, h2, h3]

/-- Witness for C9 at a concrete environment where only `malloc` fails. -/
theorem create_null_malloc_unguarded_witness :
    (envNoMem.mallocFails = true ∧ envNoMem.attrInitRet = 0 ∧
     envNoMem.setStackRet = 0 ∧ envNoMem.createRet = 0) ∧
    ((_lfi_thread_create envNoMem 7 st0).2.spawns =
       st0.spawns ++ [⟨0, 2 * 1024 * 1024, 7, 0⟩] ∧
     (_lfi_thread_create envNoMem 7 st0).1 = 0) :=
  ⟨⟨rfl, rfl, rfl, rfl⟩,
   create_null_malloc_unguarded envNoMem 7 st0 rfl rfl rfl rfl⟩

/-- Claim C10: `pthread_attr_destroy` is never called anywhere in the
program: on every path of `_lfi_thread_create` (whatever the environment,
the successful spawn path included) and on every `_lfi_thread_destroy`, the
attribute-destroy call counter is unchanged. -/
theorem attr_never_destroyed :
    (∀ (env : Env) (fn : Nat) (st : St),
      (_lfi_thread_create env fn st).2.attrDestroyCalls =
        st.attrDestroyCalls) ∧
    (∀ (p : Nat) (st : St),
      (_lfi_thread_destroy p st).attrDestroyCalls = st.attrDestroyCalls) := by
  constructor
  · intro env fn st
    by_cases h1 : env.mallocFails <;> by_cases h2 : env.attrInitRet = 0 <;>
      by_cases h3 : env.setStackRet = 0 <;>
      by_cases h4 : env.createRet = 0 <;>
      simp [_lfi_thread_create, malloc, pthread_attr_init,
        pthread_attr_setstacksize, pthread_create, h1, h2, h3, h4]
  · intro p st
    rfl

end LfiBind
